import Mathlib

/-!
Verification of the real-time event-distribution core of the
Talent-Optimization-Agent-System repository.

The definitions below are a shallow embedding of the Python sources:

* `src/src/limits/redis_limiter.py` — the Lua slot-acquire script
  (`_SLOT_ACQUIRE_SCRIPT` evaluated by `user_slot_acquire`) and
  `user_slot_release`, acting on one per-user key of the Redis store;
* `src/src/auth/jkws_middleware.py` — `JWKSClient.ensure_keys` and
  `JWKSClient.get_signing_key` (key cache with TTL, forced refresh);
* `src/src/utils/audit_logger.py` — `AuditLogger._broadcast` over the
  list of bounded subscriber queues;
* `src/src/utils/redis_metrics.py` — `hincrby` with best-effort policy;
* `src/src/agents/audit_stream.py` — `event_generator`, the per-connection
  stream session (authenticate, admit, emit loop, unconditional teardown).

Machine integers are modelled as `Int`/`Nat` (Python ints and Redis counters
are unbounded 64-bit in practice; no overflow is relevant at these sizes);
`await` points that can fail are modelled with `Except`, and an operation
that can suspend forever (a dead-locked lock acquisition) with `Option`.
-/

/-! ## Redis slot limiter (`src/src/limits/redis_limiter.py`)

The state of one per-user counter key in the Redis store: `value` is the
stored integer (`none` = key absent) and `ttl` the pending expiry
(`none` = key absent or no TTL set).  Each invocation of the Lua script
executes atomically on this state, which is the hypothesis of claim C1. -/

structure SlotState where
  value : Option Int
  ttl : Option Nat
deriving DecidableEq, Repr

/-- The Lua script `_SLOT_ACQUIRE_SCRIPT` (redis_limiter.py lines 49-61),
run atomically by Redis EVAL:
`GET key`; if absent or below the limit, `INCR`, set `EXPIRE` when the key
carries no TTL (TTL < 0), and return 1 iff the new value is within the
limit; otherwise return 0.  `true` models the script returning 1. -/
def slotAcquireScript (limit : Nat) (ttlArg : Nat) (st : SlotState) : Bool × SlotState :=
  match st.value with
  | none =>
      -- INCR creates the key with value 1 and no TTL; TTL < 0 so EXPIRE runs
      (decide ((1 : Int) ≤ (limit : Int)), { value := some 1, ttl := some ttlArg })
  | some current =>
      if current < (limit : Int) then
        let v := current + 1
        let newTtl := match st.ttl with
          | none => some ttlArg   -- TTL returned -1: EXPIRE ttlArg
          | some t => some t
        (decide (v ≤ (limit : Int)), { value := some v, ttl := newTtl })
      else
        (false, st)

/-- `user_slot_release` when the store answers (redis_limiter.py lines 75-87):
`DECR` (an absent key is created at 0 and decremented), then if the result is
negative, `SET key 0` (which also clears any TTL). -/
def slotReleaseEffect (st : SlotState) : SlotState :=
  let v := st.value.getD 0 - 1
  if v < 0 then { value := some 0, ttl := none }
  else { value := some v, ttl := st.ttl }

/-- Whether the Redis store backing the limiter/metrics is reachable.
`down` = every round trip to the store raises inside the helper. -/
inductive StoreMode
  | up
  | down
deriving DecidableEq, Repr

/-- `user_slot_acquire` (redis_limiter.py lines 63-72): evaluate the script;
on any store exception return `True` (fail-open). -/
def user_slot_acquire (mode : StoreMode) (max_slots : Nat) (slot_ttl : Nat)
    (st : SlotState) : Bool × SlotState :=
  match mode with
  | .up => slotAcquireScript max_slots slot_ttl st
  | .down => (true, st)

/-- `user_slot_release` (redis_limiter.py lines 75-87): on any store
exception, ignore the error (best-effort no-op). -/
def user_slot_release (mode : StoreMode) (st : SlotState) : SlotState :=
  match mode with
  | .up => slotReleaseEffect st
  | .down => st

/-- A sequence of `n` atomic invocations of the acquire script against the
same key, collecting each boolean result and the final key state. -/
def runAcquires (limit ttlArg : Nat) : Nat → SlotState → List Bool × SlotState
  | 0, st => ([], st)
  | Nat.succ n, st =>
      let r := slotAcquireScript limit ttlArg st
      let rest := runAcquires limit ttlArg n r.2
      (r.1 :: rest.1, rest.2)

/-- The integer currently held by the key, with an absent key read as 0. -/
def SlotState.valOf (st : SlotState) : Int :=
  st.value.getD 0

theorem runAcquires_count_le (limit ttlArg : Nat) :
    ∀ (n : Nat) (st : SlotState), 0 ≤ st.valOf →
      (((runAcquires limit ttlArg n st).1.count true : Int)) ≤
        max 0 ((limit : Int) - st.valOf) := by
  intro n
  induction n with
  | zero => intro st h; simp [runAcquires]
  | succ m ih =>
      rintro ⟨v, t⟩ h
      cases v with
      | none =>
          have hnext := ih { value := some 1, ttl := some ttlArg }
            (by simp [SlotState.valOf])
          simp only [SlotState.valOf, Option.getD_some] at hnext
          by_cases hM : (1 : Int) ≤ (limit : Int) <;>
            simp [runAcquires, slotAcquireScript, List.count_cons,
              SlotState.valOf, hM] <;>
            omega
      | some c =>
          simp only [SlotState.valOf, Option.getD_some] at h
          by_cases hlt : c < (limit : Int)
          · have hle : c + 1 ≤ (limit : Int) := by omega
            cases t with
            | none =>
                have hnext := ih { value := some (c + 1), ttl := some ttlArg }
                  (by simp [SlotState.valOf]; omega)
                simp only [SlotState.valOf, Option.getD_some] at hnext
                simp [runAcquires, slotAcquireScript, List.count_cons,
                  SlotState.valOf, hlt, hle]
                omega
            | some t0 =>
                have hnext := ih { value := some (c + 1), ttl := some t0 }
                  (by simp [SlotState.valOf]; omega)
                simp only [SlotState.valOf, Option.getD_some] at hnext
                simp [runAcquires, slotAcquireScript, List.count_cons,
                  SlotState.valOf, hlt, hle]
                omega
          · have hnext := ih { value := some c, ttl := t }
              (by simp [SlotState.valOf]; omega)
            simp only [SlotState.valOf, Option.getD_some] at hnext
            simp [runAcquires, slotAcquireScript, List.count_cons,
              SlotState.valOf, hlt]
            omega

/-- C1: over any sequence of `N` atomic invocations of the acquire script on
the same key with `max_slots = M` (starting from any nonnegative counter, in
particular from a fresh key), at most `M` invocations return true, and every
invocation that returns true increments the per-key counter by exactly one
(no double counting). -/
theorem user_slot_acquire_atomic_bound (M ttlArg N : Nat) :
    ((runAcquires M ttlArg N { value := none, ttl := none }).1.count true ≤ M) ∧
    (∀ st : SlotState, (slotAcquireScript M ttlArg st).1 = true →
      (slotAcquireScript M ttlArg st).2.value = some (st.value.getD 0 + 1)) := by
  constructor
  · have h := runAcquires_count_le M ttlArg N { value := none, ttl := none }
      (by simp [SlotState.valOf])
    simp [SlotState.valOf] at h
    omega
  · rintro ⟨v, t⟩ hres
    cases v with
    | none => simp [slotAcquireScript]
    | some c =>
        by_cases hlt : c < (M : Int)
        · simp [slotAcquireScript, hlt]
        · simp [slotAcquireScript, hlt] at hres

theorem user_slot_acquire_atomic_bound_witness :
    ((runAcquires 3 60 5 { value := none, ttl := none }).1.count true ≤ 3) ∧
    (slotAcquireScript 3 60 { value := some 1, ttl := some 60 }).2.value =
      some (({ value := some 1, ttl := some 60 } : SlotState).value.getD 0 + 1) :=
  ⟨(user_slot_acquire_atomic_bound 3 60 5).1,
   (user_slot_acquire_atomic_bound 3 60 5).2
     { value := some 1, ttl := some 60 } (by decide)⟩

/-- C5: from any per-key counter state, after each completed
`user_slot_release` the stored counter is present and nonnegative; a
decrement that would take it below zero is corrected by resetting the key
to zero (which also clears the TTL, as Redis SET does). -/
theorem user_slot_release_never_negative :
    (∀ (st : SlotState) (n : Nat), 1 ≤ n →
      ∃ v, (slotReleaseEffect^[n] st).value = some v ∧ 0 ≤ v) ∧
    (∀ st : SlotState, st.value.getD 0 - 1 < 0 →
      slotReleaseEffect st = { value := some 0, ttl := none }) := by
  have single : ∀ st : SlotState, ∃ v, (slotReleaseEffect st).value = some v ∧ 0 ≤ v := by
    intro st
    unfold slotReleaseEffect
    by_cases h : st.value.getD 0 - 1 < 0
    · exact ⟨0, by simp [h], le_refl 0⟩
    · exact ⟨st.value.getD 0 - 1, by simp [h], by omega⟩
  constructor
  · intro st n hn
    obtain ⟨m, rfl⟩ : ∃ m, n = m + 1 := ⟨n - 1, by omega⟩
    rw [Function.iterate_succ_apply']
    exact single _
  · intro st h
    unfold slotReleaseEffect
    simp [h]

theorem user_slot_release_never_negative_witness :
    (∃ v, (slotReleaseEffect^[2] { value := some 1, ttl := some 5 }).value = some v ∧ 0 ≤ v) ∧
    slotReleaseEffect { value := some 0, ttl := some 7 } = { value := some 0, ttl := none } :=
  ⟨user_slot_release_never_negative.1 { value := some 1, ttl := some 5 } 2 (by decide),
   user_slot_release_never_negative.2 { value := some 0, ttl := some 7 } (by decide)⟩

/-! ## JWKS key cache (`src/src/auth/jkws_middleware.py`)

`JWKSClient` caches the fetched JWKS document (`self._jwks`), the kid-indexed
key table (`self._keys_by_kid`), a last-refresh timestamp and a TTL.
A fetched document is modelled by which kids it carries plus its Python
truthiness (`{"keys": []}` is a truthy dict; `{}` is falsy), because
`ensure_keys` tests `if not self._jwks` on a failed refresh. -/

structure JwksDoc where
  truthy : Bool
  kids : List String
deriving DecidableEq, Repr

structure JWKSState where
  jwksCache : Option JwksDoc
  keysByKid : List String
  lastRefresh : Int
  ttl : Int
deriving DecidableEq, Repr

/-- Python truthiness of `self._jwks`: `None` and a falsy (empty-dict)
document are both falsy. -/
def jwksTruthy (st : JWKSState) : Bool :=
  match st.jwksCache with
  | none => false
  | some d => d.truthy

/-- The freshness fast path of `ensure_keys` (jkws_middleware.py line 68):
`self._jwks and (now - self._last_refresh) < self.ttl`.  `self._jwks` is
tested for truthiness, so with an unset or falsy cached document the guard
fails and the code goes on to attempt a refresh even within the TTL. -/
def jwksFresh (now : Int) (st : JWKSState) : Bool :=
  jwksTruthy st && decide (now - st.lastRefresh < st.ttl)

/-- `JWKSClient.ensure_keys` (jkws_middleware.py lines 65-83).

`fetchResult` is the outcome of `self._fetch_jwks()` (`none` = the fetch
raised).  `lockHeld` records whether the caller already holds
`self._lock`; `asyncio.Lock` is not reentrant, so entering
`async with self._lock` while it is held suspends the coroutine forever,
modelled as the outer `none`.  The returned `Nat` counts fetch attempts.
A result of `some (.error ())` models the re-raised fetch failure. -/
def ensure_keys (fetchResult : Option JwksDoc) (now : Int) (lockHeld : Bool)
    (st : JWKSState) : Option (Except Unit (JWKSState × Nat)) :=
  if jwksFresh now st then
    some (.ok (st, 0))
  else if lockHeld then
    none
  else
    -- double-check after acquiring the lock (same clock reading in this model)
    if jwksFresh now st then
      some (.ok (st, 0))
    else
      match fetchResult with
      | some doc =>
          some (.ok ({ st with jwksCache := some doc, keysByKid := doc.kids,
                               lastRefresh := now }, 1))
      | none =>
          match st.jwksCache with
          | some doc => if doc.truthy then some (.ok (st, 1)) else some (.error ())
          | none => some (.error ())

/-- Failure outcomes of `get_signing_key` as seen by `_decode_jwt`:
`KeyError` (mapped to 401 Unauthenticated) or a propagated fetch error
(mapped to 503). -/
inductive JwksFailure
  | unknownKey
  | fetchError
deriving DecidableEq, Repr

/-- `JWKSClient.get_signing_key` (jkws_middleware.py lines 85-99):
`ensure_keys`, look up the kid, and if missing, take `self._lock`, zero
`self._last_refresh` and call `ensure_keys` again (with the lock held)
before declaring the key unknown.  Outer `none` = the call never returns. -/
def get_signing_key (fetchResult : Option JwksDoc) (now : Int) (kid : String)
    (st : JWKSState) : Option (Except JwksFailure (JWKSState × Nat)) :=
  match ensure_keys fetchResult now false st with
  | none => none
  | some (.error _) => some (.error .fetchError)
  | some (.ok (st1, n1)) =>
      if kid ∈ st1.keysByKid then
        some (.ok (st1, n1))
      else
        match ensure_keys fetchResult now true { st1 with lastRefresh := 0 } with
        | none => none
        | some (.error _) => some (.error .fetchError)
        | some (.ok (st2, n2)) =>
            if kid ∈ st2.keysByKid then
              some (.ok (st2, n1 + n2))
            else
              some (.error .unknownKey)

/-- C2: the code, evaluated at the failing input.  A verification request
naming an unknown `kid` never completes: `get_signing_key` holds
`self._lock` and calls `ensure_keys`, whose TTL fast path fails
(`now - 0 = 1000 ≥ ttl = 300`), so `ensure_keys` tries to re-acquire the
already-held non-reentrant lock and the coroutine suspends forever —
instead of performing one forced refresh and failing with Unauthenticated
as the claim states. -/
theorem get_signing_key_unknown_kid_hangs :
    get_signing_key (some { truthy := true, kids := ["k1"] }) 1000 "k2"
      { jwksCache := none, keysByKid := [], lastRefresh := 0, ttl := 300 } = none := by
  rfl

/-- C9 counterexample: a refresh failure is swallowed although the key cache
is empty.  Starting from a fresh client, a first `ensure_keys` whose fetch
returns the truthy document `{"keys": []}` caches it with zero kids; a later
stale `ensure_keys` whose fetch raises is then swallowed (`self._jwks` is
truthy) and returns normally, even though `_keys_by_kid` is empty — refuting
"re-raises exactly when the cache is empty". -/
theorem ensure_keys_swallows_with_empty_key_cache :
    ensure_keys (some { truthy := true, kids := [] }) 400 false
        { jwksCache := none, keysByKid := [], lastRefresh := 0, ttl := 300 } =
      some (.ok ({ jwksCache := some { truthy := true, kids := [] },
                   keysByKid := [], lastRefresh := 400, ttl := 300 }, 1)) ∧
    ensure_keys none 1000 false
        { jwksCache := some { truthy := true, kids := [] },
          keysByKid := [], lastRefresh := 400, ttl := 300 } =
      some (.ok ({ jwksCache := some { truthy := true, kids := [] },
                   keysByKid := [], lastRefresh := 400, ttl := 300 }, 1)) ∧
    ({ jwksCache := some { truthy := true, kids := [] },
       keysByKid := [], lastRefresh := 400, ttl := 300 } : JWKSState).keysByKid = [] := by
  refine ⟨rfl, rfl, rfl⟩

/-- C9 (amended): when the freshness fast path does not apply, a failing
refresh is swallowed (returning normally after the single fetch attempt)
exactly when a previously fetched truthy JWKS document is cached — which in
particular holds whenever the key cache is non-empty, but also for a truthy
document carrying zero keys — and the failure is re-raised exactly when no
truthy document is cached. -/
theorem ensure_keys_swallow_iff_truthy_doc (now : Int) (st : JWKSState)
    (h : jwksFresh now st = false) :
    (ensure_keys none now false st = some (.ok (st, 1)) ↔
      ∃ d, st.jwksCache = some d ∧ d.truthy = true) ∧
    (ensure_keys none now false st = some (.error ()) ↔
      ∀ d, st.jwksCache = some d → d.truthy = false) := by
  unfold ensure_keys
  rw [h]
  cases hc : st.jwksCache with
  | none => simp
  | some d =>
      cases hd : d.truthy with
      | false => simp [hd]
      | true => simp [hd]

theorem ensure_keys_swallow_iff_truthy_doc_witness :
    (jwksFresh 900 { jwksCache := some { truthy := true, kids := ["a"] },
                     keysByKid := ["a"], lastRefresh := 0, ttl := 300 } = false) ∧
    (ensure_keys none 900 false
        { jwksCache := some { truthy := true, kids := ["a"] },
          keysByKid := ["a"], lastRefresh := 0, ttl := 300 } =
      some (.ok ({ jwksCache := some { truthy := true, kids := ["a"] },
                   keysByKid := ["a"], lastRefresh := 0, ttl := 300 }, 1)) ↔
      ∃ d, ({ jwksCache := some { truthy := true, kids := ["a"] },
              keysByKid := ["a"], lastRefresh := 0, ttl := 300 } : JWKSState).jwksCache
             = some d ∧ d.truthy = true) :=
  ⟨by decide,
   (ensure_keys_swallow_iff_truthy_doc 900
      { jwksCache := some { truthy := true, kids := ["a"] },
        keysByKid := ["a"], lastRefresh := 0, ttl := 300 } (by decide)).1⟩

/-! ## Event broadcaster (`src/src/utils/audit_logger.py`)

`AuditLogger` keeps `self._subscribers : List[asyncio.Queue]`, each queue
created by `subscribe` with `maxsize=100`.  `_broadcast` runs under
`self._lock`: it iterates over the subscriber list, `put_nowait`s the event
into every queue, collects the queues that raised `QueueFull`, and removes
them from the subscriber list.  A queue is modelled by its list of pending
events (delivery order = list order). -/

def queueCapacity : Nat := 100

/-- `asyncio.Queue.put_nowait` on a queue with `maxsize = queueCapacity`:
append if below capacity, `QueueFull` (`none`) otherwise. -/
def queuePutNowait (q : List Nat) (ev : Nat) : Option (List Nat) :=
  if q.length < queueCapacity then some (q ++ [ev]) else none

/-- `AuditLogger._broadcast` (audit_logger.py lines 95-107): every queue that
accepts the push keeps its place (now holding the event); every queue that
raised `QueueFull` is removed from the subscriber list. -/
def auditBroadcast (ev : Nat) (subs : List (List Nat)) : List (List Nat) :=
  subs.filterMap (fun q => queuePutNowait q ev)

/-- A sequence of `log` calls publishing `es` in order. -/
def auditBroadcastAll (es : List Nat) (subs : List (List Nat)) : List (List Nat) :=
  es.foldl (fun s e => auditBroadcast e s) subs

theorem auditBroadcast_eq_filter_map (ev : Nat) (subs : List (List Nat)) :
    auditBroadcast ev subs =
      (subs.filter (fun q => decide (q.length < queueCapacity))).map
        (fun q => q ++ [ev]) := by
  induction subs with
  | nil => rfl
  | cons q t ih =>
      by_cases h : q.length < queueCapacity <;>
        simp [auditBroadcast, queuePutNowait, h, List.filter_cons] at ih ⊢ <;>
        exact ih

/-- C6: for every publish while `K` subscriber channels are registered, the
event is pushed into each registered channel without blocking and delivered
to each channel at most once — precisely: the new subscriber list consists
of exactly the channels that were below capacity, each with the event
appended exactly once, and every channel at capacity is deregistered; and
delivery per channel is in publish order: a channel that stays below
capacity through a sequence of publishes holds exactly those events, in
publish order, after its prior contents. -/
theorem audit_broadcast_delivery (ev : Nat) (subs : List (List Nat)) :
    (auditBroadcast ev subs =
      (subs.filter (fun q => decide (q.length < queueCapacity))).map
        (fun q => q ++ [ev])) ∧
    (∀ (es : List Nat) (q0 : List Nat) (s : List (List Nat)),
      q0 ∈ s → q0.length + es.length ≤ queueCapacity →
      (q0 ++ es) ∈ auditBroadcastAll es s) := by
  refine ⟨auditBroadcast_eq_filter_map ev subs, ?_⟩
  intro es
  induction es with
  | nil => intro q0 s hq _; simpa [auditBroadcastAll] using hq
  | cons e es ih =>
      intro q0 s hq hlen
      have hq1 : (q0 ++ [e]) ∈ auditBroadcast e s := by
        rw [auditBroadcast, List.mem_filterMap]
        refine ⟨q0, hq, ?_⟩
        have hlt : q0.length < queueCapacity := by
          simp [List.length_cons] at hlen
          omega
        simp [queuePutNowait, hlt]
      have := ih (q0 ++ [e]) (auditBroadcast e s) hq1
        (by simp [List.length_append] at hlen ⊢; omega)
      simpa [auditBroadcastAll, List.append_assoc] using this

theorem audit_broadcast_delivery_witness :
    (auditBroadcast 7 [[1], [2, 3]] =
      (([[1], [2, 3]] : List (List Nat)).filter
          (fun q => decide (q.length < queueCapacity))).map (fun q => q ++ [7])) ∧
    ([5] ++ [8, 9]) ∈ auditBroadcastAll [8, 9] [[4], [5]] :=
  ⟨(audit_broadcast_delivery 7 [[1], [2, 3]]).1,
   (audit_broadcast_delivery 0 []).2 [8, 9] [5] [[4], [5]]
     (by simp) (by simp [queueCapacity])⟩

/-! ## Metrics and the stream session
(`src/src/utils/redis_metrics.py`, `src/src/agents/audit_stream.py`)

`redis_metrics.hincrby` raises `RuntimeError` when `REDIS_URL` is not
configured; when it is configured it attempts the Redis `HINCRBY` and
swallows any store exception (`except Exception: pass`, best-effort). -/

inductive MetricsMode
  | central        -- REDIS_URL configured, store reachable
  | down           -- REDIS_URL configured, every store operation raises
  | unconfigured   -- REDIS_URL not configured: hincrby raises RuntimeError
deriving DecidableEq, Repr

/-- `redis_metrics.hincrby` (redis_metrics.py lines 18-28) applied to the
current value of one field of the `talent_metrics` hash: `.error` models the
raised `RuntimeError`, `.ok` the returned-normally cases (with the store
exception swallowed in `down` mode, leaving the field unchanged). -/
def hincrbyM : MetricsMode → Int → Int → Except Unit Int
  | .central, cur, amt => .ok (cur + amt)
  | .down, cur, _ => .ok cur
  | .unconfigured, _, _ => .error ()

/-- The counters touched by `event_generator`: the central `talent_metrics`
hash fields and the in-process fallback `_local_active_connections`. -/
structure MetricsState where
  centralActive : Int
  centralTotal : Int
  centralDropped : Int
  centralEvents : Int
  localActive : Int
deriving DecidableEq, Repr

/-- audit_stream.py lines 53-59 (token path): increment `active_connections`
then `total_connections`; on an exception from either, `pass` (no local
fallback; the second call is skipped when the first raises). -/
def incrActiveTotalPass (mode : MetricsMode) (m : MetricsState) : MetricsState :=
  match hincrbyM mode m.centralActive 1 with
  | .error _ => m
  | .ok a =>
      match hincrbyM mode m.centralTotal 1 with
      | .error _ => { m with centralActive := a }
      | .ok t => { m with centralActive := a, centralTotal := t }

/-- audit_stream.py lines 69-74 (anonymous path): same increments, but on an
exception fall back to `_local_active_connections += 1`. -/
def incrActiveTotalLocalFallback (mode : MetricsMode) (m : MetricsState) : MetricsState :=
  match hincrbyM mode m.centralActive 1 with
  | .error _ => { m with localActive := m.localActive + 1 }
  | .ok a =>
      match hincrbyM mode m.centralTotal 1 with
      | .error _ => { m with centralActive := a, localActive := m.localActive + 1 }
      | .ok t => { m with centralActive := a, centralTotal := t }

/-- audit_stream.py lines 99-102 / 107-110: `hincrby("dropped_clients", 1)`
with `except Exception: pass`. -/
def incrDroppedPass (mode : MetricsMode) (m : MetricsState) : MetricsState :=
  match hincrbyM mode m.centralDropped 1 with
  | .error _ => m
  | .ok d => { m with centralDropped := d }

/-- audit_stream.py lines 118-121: `hincrby("events_sent", 1)` with
`except Exception: pass`. -/
def incrEventsPass (mode : MetricsMode) (m : MetricsState) : MetricsState :=
  match hincrbyM mode m.centralEvents 1 with
  | .error _ => m
  | .ok e => { m with centralEvents := e }

/-- The claims payload of a decoded token, as read by `event_generator`:
`payload.get("sub")` and `payload.get("exp")` (epoch seconds). -/
structure TokenPayload where
  sub : Option String
  exp : Option Int
deriving DecidableEq, Repr

/-- Python truthiness of the optional `sub` string (`if acquired and user_sub`):
absent and empty strings are falsy. -/
def pyTruthy (o : Option String) : Bool :=
  o.getD "" ≠ ""

/-- What the awaited `gen.__anext__()` (possibly under `asyncio.wait_for`)
does in one loop iteration of `event_generator`. -/
inductive AwaitOutcome
  | nextEvent (item : Nat) (serializable : Bool)  -- an audit event arrives
  | timedOut                                      -- asyncio.TimeoutError
  | streamClosed                                  -- StopAsyncIteration
  | streamError                                   -- any other exception
deriving DecidableEq, Repr

/-- One SSE frame written to the wire: the serialized event, or the
`{"error": "serialization_error"}` placeholder. -/
inductive SseFrame
  | data (item : Nat)
  | serializationError
deriving DecidableEq, Repr

/-- How the generator body ended. -/
inductive ExitKind
  | http (code : Nat)   -- raised HTTPException(code)
  | completed           -- `break` out of the loop, generator returns
  | cancelled           -- client disconnect: generator closed at a suspension
deriving DecidableEq, Repr

/-- The environment of one `event_generator` session: the token-decode
outcome (`none` = no/falsy token, `.error c` = `_decode_jwt` raised
HTTPException(c)), the clock at session start, the recognized configuration,
the store/metrics reachability, and the per-iteration schedule of clock
readings and await outcomes (an exhausted schedule models the client
disconnecting, which closes the generator). -/
structure SessionEnv where
  token : Option (Except Nat TokenPayload)
  startNow : Int
  inactivity_ttl : Int
  max_slots : Nat
  slot_ttl : Nat
  store : StoreMode
  metricsMode : MetricsMode
  schedule : List (Int × AwaitOutcome)
deriving Repr

/-- The session-local mutable state threaded through the generator. -/
structure Sess where
  slot : SlotState
  metrics : MetricsState
  acquired : Bool
  userSub : Option String
deriving DecidableEq, Repr

/-- The per-iteration deadline computation (audit_stream.py lines 79-89):
when `token_ttl` is tracked, recompute it as
`int((payload.get("exp") or 0) - time.time())` and raise 401 when it has
reached zero or below; collect it and a truthy (nonzero) `inactivity_ttl`
into the candidate list; the timeout is their minimum, or `None` (wait
indefinitely) when neither bound is configured. -/
def computeTimeout (tok : Option TokenPayload) (now : Int) (inactivity : Int) :
    Except Unit (Option Int) :=
  match tok with
  | some p =>
      let ttl := (p.exp.getD 0) - now
      if ttl ≤ 0 then .error ()
      else .ok (some (if inactivity ≠ 0 then min ttl inactivity else ttl))
  | none => .ok (if inactivity ≠ 0 then some inactivity else none)

/-- The emit loop of `event_generator` (audit_stream.py lines 77-123),
driven by the schedule.  `tok` is `some payload` exactly when `token_ttl`
was set before the loop (token path).  The computed timeout only selects
between `asyncio.wait_for` and a bare `__anext__`; which outcome occurs is
the environment's choice, recorded in the schedule. -/
def runLoop (mode : MetricsMode) (tok : Option TokenPayload) (inactivity : Int) :
    List (Int × AwaitOutcome) → Sess → List SseFrame →
      Sess × ExitKind × List SseFrame
  | [], sess, fr => (sess, .cancelled, fr)
  | (now, o) :: rest, sess, fr =>
      match computeTimeout tok now inactivity with
      | .error _ => (sess, .http 401, fr)   -- token expired mid-stream
      | .ok _ =>
          match o with
          | .timedOut =>
              ({ sess with metrics := incrDroppedPass mode sess.metrics },
               .completed, fr)
          | .streamClosed => (sess, .completed, fr)
          | .streamError =>
              ({ sess with metrics := incrDroppedPass mode sess.metrics },
               .completed, fr)
          | .nextEvent item ser =>
              let frame := if ser then SseFrame.data item
                           else SseFrame.serializationError
              runLoop mode tok inactivity rest
                { sess with metrics := incrEventsPass mode sess.metrics }
                (fr ++ [frame])

/-- The body of `event_generator` (audit_stream.py lines 31-123), up to but
not including the `finally` block: authenticate, admit, subscribe, loop. -/
def eventGeneratorBody (env : SessionEnv) (slot0 : SlotState) (m0 : MetricsState) :
    Sess × ExitKind × List SseFrame :=
  let sess0 : Sess := { slot := slot0, metrics := m0, acquired := false, userSub := none }
  match env.token with
  | none =>
      let m1 := incrActiveTotalLocalFallback env.metricsMode m0
      runLoop env.metricsMode none env.inactivity_ttl env.schedule
        { sess0 with metrics := m1 } []
  | some (.error code) => (sess0, .http code, [])
  | some (.ok p) =>
      let sess1 := { sess0 with userSub := p.sub }
      match p.exp with
      | none => (sess1, .http 401, [])
      | some e =>
          if e - env.startNow ≤ 0 then (sess1, .http 401, [])
          else
            let r := user_slot_acquire env.store env.max_slots env.slot_ttl slot0
            let sess2 := { sess1 with slot := r.2, acquired := r.1 }
            if r.1 then
              let m1 := incrActiveTotalPass env.metricsMode m0
              runLoop env.metricsMode (some p) env.inactivity_ttl env.schedule
                { sess2 with metrics := m1 } []
            else
              (sess2, .http 429, [])

/-- The `finally` block of `event_generator` (audit_stream.py lines 124-137):
release the slot when `acquired and user_sub` is truthy, then
`hincrby("active_connections", -1)`, falling back on an exception to the
clamped decrement of the local counter.  Returns the state after teardown
and whether `user_slot_release` was called. -/
def teardownRun (env : SessionEnv) (sess : Sess) : Sess × Bool :=
  let released := sess.acquired && pyTruthy sess.userSub
  let slot1 := if released then user_slot_release env.store sess.slot else sess.slot
  let m := sess.metrics
  let m1 :=
    match hincrbyM env.metricsMode m.centralActive (-1) with
    | .ok a => { m with centralActive := a }
    | .error _ =>
        if m.localActive > 0 then { m with localActive := m.localActive - 1 } else m
  ({ sess with slot := slot1, metrics := m1 }, released)

/-- The observable result of one full `event_generator` session. -/
structure RunResult where
  exit : ExitKind
  frames : List SseFrame
  released : Bool
  acquired : Bool
  userSub : Option String
  slot : SlotState
  metrics : MetricsState
deriving DecidableEq, Repr

/-- `event_generator` (audit_stream.py lines 31-137): the body followed by
the unconditional, once-only `finally` teardown. -/
def eventGenerator (env : SessionEnv) (slot0 : SlotState) (m0 : MetricsState) :
    RunResult :=
  let b := eventGeneratorBody env slot0 m0
  let t := teardownRun env b.1
  { exit := b.2.1, frames := b.2.2, released := t.2, acquired := t.1.acquired,
    userSub := t.1.userSub, slot := t.1.slot, metrics := t.1.metrics }

/-- A token-bearing session that is rejected before its metric increments
run: `_decode_jwt` raised, `exp` missing or already past, or admission
denied by the acquire script. -/
def preIncrementRejected (env : SessionEnv) (slot0 : SlotState) : Bool :=
  match env.token with
  | none => false
  | some (.error _) => true
  | some (.ok p) =>
      match p.exp with
      | none => true
      | some e =>
          if e - env.startNow ≤ 0 then true
          else !(user_slot_acquire env.store env.max_slots env.slot_ttl slot0).1

/-! ### Helper lemmas about the session machinery -/

@[simp] theorem incrEventsPass_centralActive (mode : MetricsMode) (m : MetricsState) :
    (incrEventsPass mode m).centralActive = m.centralActive := by
  cases mode <;> simp [incrEventsPass, hincrbyM]

@[simp] theorem incrEventsPass_centralTotal (mode : MetricsMode) (m : MetricsState) :
    (incrEventsPass mode m).centralTotal = m.centralTotal := by
  cases mode <;> simp [incrEventsPass, hincrbyM]

@[simp] theorem incrEventsPass_centralDropped (mode : MetricsMode) (m : MetricsState) :
    (incrEventsPass mode m).centralDropped = m.centralDropped := by
  cases mode <;> simp [incrEventsPass, hincrbyM]

@[simp] theorem incrEventsPass_localActive (mode : MetricsMode) (m : MetricsState) :
    (incrEventsPass mode m).localActive = m.localActive := by
  cases mode <;> simp [incrEventsPass, hincrbyM]

@[simp] theorem incrDroppedPass_centralActive (mode : MetricsMode) (m : MetricsState) :
    (incrDroppedPass mode m).centralActive = m.centralActive := by
  cases mode <;> simp [incrDroppedPass, hincrbyM]

@[simp] theorem incrDroppedPass_centralTotal (mode : MetricsMode) (m : MetricsState) :
    (incrDroppedPass mode m).centralTotal = m.centralTotal := by
  cases mode <;> simp [incrDroppedPass, hincrbyM]

@[simp] theorem incrDroppedPass_centralEvents (mode : MetricsMode) (m : MetricsState) :
    (incrDroppedPass mode m).centralEvents = m.centralEvents := by
  cases mode <;> simp [incrDroppedPass, hincrbyM]

@[simp] theorem incrDroppedPass_localActive (mode : MetricsMode) (m : MetricsState) :
    (incrDroppedPass mode m).localActive = m.localActive := by
  cases mode <;> simp [incrDroppedPass, hincrbyM]

@[simp] theorem incrActiveTotalPass_localActive (mode : MetricsMode) (m : MetricsState) :
    (incrActiveTotalPass mode m).localActive = m.localActive := by
  cases mode <;> simp [incrActiveTotalPass, hincrbyM]

@[simp] theorem incrEventsPass_down (m : MetricsState) :
    incrEventsPass .down m = m := by
  simp [incrEventsPass, hincrbyM]

@[simp] theorem incrDroppedPass_down (m : MetricsState) :
    incrDroppedPass .down m = m := by
  simp [incrDroppedPass, hincrbyM]

@[simp] theorem incrActiveTotalPass_down (m : MetricsState) :
    incrActiveTotalPass .down m = m := by
  simp [incrActiveTotalPass, hincrbyM]

/-- The emit loop never touches the slot store, the acquisition flag, the
subject, the local counter, or the central active/total counters (it only
writes `dropped_clients` / `events_sent`, both best-effort). -/
theorem runLoop_preserves (mode : MetricsMode) (tok : Option TokenPayload)
    (inact : Int) :
    ∀ (sched : List (Int × AwaitOutcome)) (sess : Sess) (fr : List SseFrame),
      (runLoop mode tok inact sched sess fr).1.slot = sess.slot ∧
      (runLoop mode tok inact sched sess fr).1.acquired = sess.acquired ∧
      (runLoop mode tok inact sched sess fr).1.userSub = sess.userSub ∧
      (runLoop mode tok inact sched sess fr).1.metrics.localActive =
        sess.metrics.localActive ∧
      (runLoop mode tok inact sched sess fr).1.metrics.centralActive =
        sess.metrics.centralActive ∧
      (runLoop mode tok inact sched sess fr).1.metrics.centralTotal =
        sess.metrics.centralTotal := by
  intro sched
  induction sched with
  | nil => intro sess fr; simp [runLoop]
  | cons hd t ih =>
      intro sess fr
      obtain ⟨now, o⟩ := hd
      cases hct : computeTimeout tok now inact with
      | error u => simp [runLoop, hct]
      | ok tmo =>
          cases o with
          | timedOut => simp [runLoop, hct]
          | streamClosed => simp [runLoop, hct]
          | streamError => simp [runLoop, hct]
          | nextEvent item ser =>
              have hrec := ih { sess with metrics := incrEventsPass mode sess.metrics }
                (fr ++ [if ser then SseFrame.data item else SseFrame.serializationError])
              simp only [runLoop, hct]
              simpa using hrec

/-- In `down` mode every metric write is swallowed by the store, so the
loop leaves the whole session state untouched. -/
theorem runLoop_down_state (tok : Option TokenPayload) (inact : Int) :
    ∀ (sched : List (Int × AwaitOutcome)) (sess : Sess) (fr : List SseFrame),
      (runLoop .down tok inact sched sess fr).1 = sess := by
  intro sched
  induction sched with
  | nil => intro sess fr; simp [runLoop]
  | cons hd t ih =>
      intro sess fr
      obtain ⟨now, o⟩ := hd
      cases hct : computeTimeout tok now inact with
      | error u => simp [runLoop, hct]
      | ok tmo =>
          cases o with
          | timedOut => simp [runLoop, hct]
          | streamClosed => simp [runLoop, hct]
          | streamError => simp [runLoop, hct]
          | nextEvent item ser =>
              have hrec := ih { sess with metrics := incrEventsPass .down sess.metrics }
                (fr ++ [if ser then SseFrame.data item else SseFrame.serializationError])
              simpa [runLoop, hct] using hrec

theorem incrActiveTotalLocalFallback_localActive (mode : MetricsMode) (m : MetricsState) :
    (incrActiveTotalLocalFallback mode m).localActive = m.localActive ∨
    (incrActiveTotalLocalFallback mode m).localActive = m.localActive + 1 := by
  cases mode <;> simp [incrActiveTotalLocalFallback, hincrbyM]

/-- Field-level characterization of the `finally` block. -/
theorem teardownRun_spec (env : SessionEnv) (sess : Sess) :
    ((teardownRun env sess).2 = (sess.acquired && pyTruthy sess.userSub)) ∧
    ((teardownRun env sess).1.acquired = sess.acquired) ∧
    ((teardownRun env sess).1.userSub = sess.userSub) ∧
    ((sess.acquired && pyTruthy sess.userSub) = true →
      (teardownRun env sess).1.slot = user_slot_release env.store sess.slot) ∧
    ((sess.acquired && pyTruthy sess.userSub) = false →
      (teardownRun env sess).1.slot = sess.slot) ∧
    (env.metricsMode = .central →
      (teardownRun env sess).1.metrics.centralActive = sess.metrics.centralActive - 1 ∧
      (teardownRun env sess).1.metrics.localActive = sess.metrics.localActive ∧
      (teardownRun env sess).1.metrics.centralTotal = sess.metrics.centralTotal) ∧
    (env.metricsMode = .unconfigured →
      (teardownRun env sess).1.metrics.centralActive = sess.metrics.centralActive ∧
      (teardownRun env sess).1.metrics.localActive =
        (if sess.metrics.localActive > 0 then sess.metrics.localActive - 1
         else sess.metrics.localActive)) ∧
    (env.metricsMode = .down →
      (teardownRun env sess).1.metrics = sess.metrics) := by
  refine ⟨by simp [teardownRun], by simp [teardownRun], by simp [teardownRun],
    ?_, ?_, ?_, ?_, ?_⟩
  · intro h; simp [teardownRun, h]
  · intro h; simp [teardownRun, h]
  · intro h; simp [teardownRun, h, hincrbyM]; omega
  · intro h
    simp [teardownRun, h, hincrbyM]
    by_cases hl : 0 < sess.metrics.localActive <;> simp [hl]
  · intro h; simp [teardownRun, h, hincrbyM]

theorem teardownRun_localActive_nonneg (env : SessionEnv) (sess : Sess)
    (h : 0 ≤ sess.metrics.localActive) :
    0 ≤ (teardownRun env sess).1.metrics.localActive := by
  cases hm : env.metricsMode
  case central => simpa [teardownRun, hincrbyM, hm] using h
  case down => simpa [teardownRun, hincrbyM, hm] using h
  case unconfigured =>
      simp [teardownRun, hincrbyM, hm]
      split
      · simp
        omega
      · omega

/-- localActive through the generator body: the anonymous path may add one
(only when `hincrby` raises, i.e. the store is unconfigured); every other
path leaves it unchanged. -/
theorem eventGeneratorBody_localActive (env : SessionEnv) (slot0 : SlotState)
    (m0 : MetricsState) :
    (eventGeneratorBody env slot0 m0).1.metrics.localActive = m0.localActive ∨
    (eventGeneratorBody env slot0 m0).1.metrics.localActive = m0.localActive + 1 := by
  cases htok : env.token with
  | none =>
      have hpre := runLoop_preserves env.metricsMode none env.inactivity_ttl
        env.schedule
        { slot := slot0, metrics := incrActiveTotalLocalFallback env.metricsMode m0,
          acquired := false, userSub := none } []
      have hfb := incrActiveTotalLocalFallback_localActive env.metricsMode m0
      simp only [eventGeneratorBody, htok]
      rcases hfb with hfb | hfb
      · left; rw [hpre.2.2.2.1]; simpa using hfb
      · right; rw [hpre.2.2.2.1]; simpa using hfb
  | some exc =>
      cases exc with
      | error code => simp [eventGeneratorBody, htok]
      | ok p =>
          cases hexp : p.exp with
          | none => simp [eventGeneratorBody, htok, hexp]
          | some e =>
              by_cases he : e - env.startNow ≤ 0
              · simp [eventGeneratorBody, htok, hexp, he]
              · cases hacq : (user_slot_acquire env.store env.max_slots
                    env.slot_ttl slot0).1 with
                | false => simp [eventGeneratorBody, htok, hexp, he, hacq]
                | true =>
                    have hpre := runLoop_preserves env.metricsMode (some p)
                      env.inactivity_ttl env.schedule
                      { slot := (user_slot_acquire env.store env.max_slots
                          env.slot_ttl slot0).2,
                        metrics := incrActiveTotalPass env.metricsMode m0,
                        acquired := true, userSub := p.sub } []
                    left
                    simp only [eventGeneratorBody, htok, hexp, he, hacq]
                    simp [he, hacq]
                    rw [hpre.2.2.2.1]
                    simp

/-- C3 (amended): teardown runs exactly once on every exit path of the
session (the `finally` block is applied exactly once to whatever state the
body reached, for every environment: auth failure, admission denial,
timeout, token expiry, stream close/error, cancellation).  The slot is
released precisely when one was acquired and the session's subject is
truthy — a session whose decoded token lacks a `sub` claim acquires a slot
under `streams:None` that teardown never releases (see the counterexample);
when no release happens the slot store is left exactly as the body left it.
The central `active_connections` decrement is applied when the store is
reachable; the clamped local fallback decrement occurs exactly when the
metrics helper raises (store unconfigured); when the configured store's
decrement operation itself fails, the failure is swallowed inside the
helper and neither counter is decremented. -/
theorem stream_teardown_exactly_once (env : SessionEnv) (slot0 : SlotState)
    (m0 : MetricsState) :
    ((eventGenerator env slot0 m0).released =
      ((eventGeneratorBody env slot0 m0).1.acquired &&
        pyTruthy (eventGeneratorBody env slot0 m0).1.userSub)) ∧
    ((eventGenerator env slot0 m0).released = true →
      (eventGenerator env slot0 m0).slot =
        user_slot_release env.store (eventGeneratorBody env slot0 m0).1.slot) ∧
    ((eventGenerator env slot0 m0).released = false →
      (eventGenerator env slot0 m0).slot = (eventGeneratorBody env slot0 m0).1.slot) ∧
    (env.metricsMode = .central →
      (eventGenerator env slot0 m0).metrics.centralActive =
        (eventGeneratorBody env slot0 m0).1.metrics.centralActive - 1 ∧
      (eventGenerator env slot0 m0).metrics.localActive =
        (eventGeneratorBody env slot0 m0).1.metrics.localActive ∧
      (eventGenerator env slot0 m0).metrics.centralTotal =
        (eventGeneratorBody env slot0 m0).1.metrics.centralTotal) ∧
    (env.metricsMode = .unconfigured →
      (eventGenerator env slot0 m0).metrics.centralActive =
        (eventGeneratorBody env slot0 m0).1.metrics.centralActive ∧
      (eventGenerator env slot0 m0).metrics.localActive =
        (if (eventGeneratorBody env slot0 m0).1.metrics.localActive > 0
         then (eventGeneratorBody env slot0 m0).1.metrics.localActive - 1
         else (eventGeneratorBody env slot0 m0).1.metrics.localActive)) ∧
    (env.metricsMode = .down →
      (eventGenerator env slot0 m0).metrics =
        (eventGeneratorBody env slot0 m0).1.metrics) := by
  have H := teardownRun_spec env (eventGeneratorBody env slot0 m0).1
  refine ⟨H.1, ?_, ?_, H.2.2.2.2.2.1, H.2.2.2.2.2.2.1, H.2.2.2.2.2.2.2⟩
  · intro hr
    exact H.2.2.2.1 ((H.1).symm.trans hr)
  · intro hr
    exact H.2.2.2.2.1 ((H.1).symm.trans hr)

theorem stream_teardown_exactly_once_witness :
    ((eventGenerator
        { token := some (.ok { sub := some "w", exp := some 50 }), startNow := 0,
          inactivity_ttl := 60, max_slots := 2, slot_ttl := 10,
          store := .up, metricsMode := .central, schedule := [] }
        { value := none, ttl := none }
        { centralActive := 0, centralTotal := 0, centralDropped := 0,
          centralEvents := 0, localActive := 0 }).slot =
      user_slot_release StoreMode.up
        ((eventGeneratorBody
            { token := some (.ok { sub := some "w", exp := some 50 }), startNow := 0,
              inactivity_ttl := 60, max_slots := 2, slot_ttl := 10,
              store := .up, metricsMode := .central, schedule := [] }
            { value := none, ttl := none }
            { centralActive := 0, centralTotal := 0, centralDropped := 0,
              centralEvents := 0, localActive := 0 }).1.slot)) ∧
    ((eventGenerator
        { token := some (.ok { sub := some "w", exp := some 50 }), startNow := 0,
          inactivity_ttl := 60, max_slots := 2, slot_ttl := 10,
          store := .up, metricsMode := .central, schedule := [] }
        { value := none, ttl := none }
        { centralActive := 0, centralTotal := 0, centralDropped := 0,
          centralEvents := 0, localActive := 0 }).metrics.centralActive =
      ((eventGeneratorBody
          { token := some (.ok { sub := some "w", exp := some 50 }), startNow := 0,
            inactivity_ttl := 60, max_slots := 2, slot_ttl := 10,
            store := .up, metricsMode := .central, schedule := [] }
          { value := none, ttl := none }
          { centralActive := 0, centralTotal := 0, centralDropped := 0,
            centralEvents := 0, localActive := 0 }).1.metrics.centralActive - 1)) :=
  ⟨(stream_teardown_exactly_once
      { token := some (.ok { sub := some "w", exp := some 50 }), startNow := 0,
        inactivity_ttl := 60, max_slots := 2, slot_ttl := 10,
        store := .up, metricsMode := .central, schedule := [] }
      { value := none, ttl := none }
      { centralActive := 0, centralTotal := 0, centralDropped := 0,
        centralEvents := 0, localActive := 0 }).2.1 (by decide),
   ((stream_teardown_exactly_once
      { token := some (.ok { sub := some "w", exp := some 50 }), startNow := 0,
        inactivity_ttl := 60, max_slots := 2, slot_ttl := 10,
        store := .up, metricsMode := .central, schedule := [] }
      { value := none, ttl := none }
      { centralActive := 0, centralTotal := 0, centralDropped := 0,
        centralEvents := 0, localActive := 0 }).2.2.2.1 rfl).1⟩

/-- C3 counterexample, two concrete sessions.

First run (decrement fallback gap): with the metrics store configured but
its operations failing, a completed anonymous session decrements neither
the central nor the local `active_connections` counter — the central
decrement fails silently inside `hincrby` and no fallback to the local
counter occurs, refuting "decremented centrally, falling back to the local
in-process counter only when the centralized decrement fails".

Second run (subjectless slot leak): a session whose validly decoded token
carries no `sub` claim acquires a slot under the key `streams:None`
(`acquired = true`, counter now 1), but the teardown guard
`if acquired and user_sub` is falsy, so the slot is never released: the
counter is still 1 after teardown, refuting "if a slot was acquired for the
session's subject it is released" for this session. -/
theorem stream_teardown_counterexample :
    (eventGenerator
        { token := none, startNow := 0, inactivity_ttl := 60, max_slots := 5,
          slot_ttl := 3600, store := .up, metricsMode := .down, schedule := [] }
        { value := none, ttl := none }
        { centralActive := 5, centralTotal := 6, centralDropped := 7,
          centralEvents := 8, localActive := 3 }).metrics =
      { centralActive := 5, centralTotal := 6, centralDropped := 7,
        centralEvents := 8, localActive := 3 } ∧
    (eventGenerator
        { token := none, startNow := 0, inactivity_ttl := 60, max_slots := 5,
          slot_ttl := 3600, store := .up, metricsMode := .down, schedule := [] }
        { value := none, ttl := none }
        { centralActive := 5, centralTotal := 6, centralDropped := 7,
          centralEvents := 8, localActive := 3 }).exit = ExitKind.cancelled ∧
    (eventGenerator
        { token := some (.ok { sub := none, exp := some 100 }), startNow := 0,
          inactivity_ttl := 60, max_slots := 5, slot_ttl := 3600,
          store := .up, metricsMode := .central, schedule := [] }
        { value := none, ttl := none }
        { centralActive := 0, centralTotal := 0, centralDropped := 0,
          centralEvents := 0, localActive := 0 }).acquired = true ∧
    (eventGenerator
        { token := some (.ok { sub := none, exp := some 100 }), startNow := 0,
          inactivity_ttl := 60, max_slots := 5, slot_ttl := 3600,
          store := .up, metricsMode := .central, schedule := [] }
        { value := none, ttl := none }
        { centralActive := 0, centralTotal := 0, centralDropped := 0,
          centralEvents := 0, localActive := 0 }).released = false ∧
    (eventGenerator
        { token := some (.ok { sub := none, exp := some 100 }), startNow := 0,
          inactivity_ttl := 60, max_slots := 5, slot_ttl := 3600,
          store := .up, metricsMode := .central, schedule := [] }
        { value := none, ttl := none }
        { centralActive := 0, centralTotal := 0, centralDropped := 0,
          centralEvents := 0, localActive := 0 }).slot =
      { value := some 1, ttl := some 3600 } :=
  ⟨rfl, rfl, rfl, rfl, rfl⟩

/-- C4 (amended): when the configured admission/metrics store is unreachable
(every store operation raises inside the helpers), a token-bearing session
with a valid, unexpired token is admitted fail-open (`acquired = true`),
`user_slot_release` is called at teardown as a best-effort no-op (the slot
store is returned unchanged), and no metric operation raises to the caller
— but the metric increments are silently dropped: they do not fall back to
the local in-process counters (the whole metrics state is unchanged). -/
theorem stream_fail_open_when_store_down (slot0 : SlotState) (m0 : MetricsState)
    (s : String) (e now inact : Int) (maxS ttlS : Nat)
    (sched : List (Int × AwaitOutcome)) (hs : s ≠ "") (he : now < e) :
    (eventGenerator
        { token := some (.ok { sub := some s, exp := some e }), startNow := now,
          inactivity_ttl := inact, max_slots := maxS, slot_ttl := ttlS,
          store := .down, metricsMode := .down, schedule := sched }
        slot0 m0).acquired = true ∧
    (eventGenerator
        { token := some (.ok { sub := some s, exp := some e }), startNow := now,
          inactivity_ttl := inact, max_slots := maxS, slot_ttl := ttlS,
          store := .down, metricsMode := .down, schedule := sched }
        slot0 m0).released = true ∧
    (eventGenerator
        { token := some (.ok { sub := some s, exp := some e }), startNow := now,
          inactivity_ttl := inact, max_slots := maxS, slot_ttl := ttlS,
          store := .down, metricsMode := .down, schedule := sched }
        slot0 m0).slot = slot0 ∧
    (eventGenerator
        { token := some (.ok { sub := some s, exp := some e }), startNow := now,
          inactivity_ttl := inact, max_slots := maxS, slot_ttl := ttlS,
          store := .down, metricsMode := .down, schedule := sched }
        slot0 m0).metrics = m0 := by
  have hexp : ¬(e - now ≤ 0) := by omega
  have hbody : (eventGeneratorBody
      { token := some (.ok { sub := some s, exp := some e }), startNow := now,
        inactivity_ttl := inact, max_slots := maxS, slot_ttl := ttlS,
        store := .down, metricsMode := .down, schedule := sched }
      slot0 m0).1 =
      { slot := slot0, metrics := m0, acquired := true, userSub := some s } := by
    simp [eventGeneratorBody, user_slot_acquire, hexp, runLoop_down_state]
  refine ⟨?_, ?_, ?_, ?_⟩ <;>
    simp [eventGenerator, hbody, teardownRun, pyTruthy, hs, hincrbyM,
      user_slot_release]

theorem stream_fail_open_when_store_down_witness :
    (eventGenerator
        { token := some (.ok { sub := some "u", exp := some 100 }), startNow := 0,
          inactivity_ttl := 60, max_slots := 5, slot_ttl := 3600,
          store := .down, metricsMode := .down,
          schedule := [((3 : Int), AwaitOutcome.timedOut)] }
        { value := some 2, ttl := some 9 }
        { centralActive := 1, centralTotal := 2, centralDropped := 3,
          centralEvents := 4, localActive := 5 }).acquired = true ∧
    (eventGenerator
        { token := some (.ok { sub := some "u", exp := some 100 }), startNow := 0,
          inactivity_ttl := 60, max_slots := 5, slot_ttl := 3600,
          store := .down, metricsMode := .down,
          schedule := [((3 : Int), AwaitOutcome.timedOut)] }
        { value := some 2, ttl := some 9 }
        { centralActive := 1, centralTotal := 2, centralDropped := 3,
          centralEvents := 4, localActive := 5 }).released = true ∧
    (eventGenerator
        { token := some (.ok { sub := some "u", exp := some 100 }), startNow := 0,
          inactivity_ttl := 60, max_slots := 5, slot_ttl := 3600,
          store := .down, metricsMode := .down,
          schedule := [((3 : Int), AwaitOutcome.timedOut)] }
        { value := some 2, ttl := some 9 }
        { centralActive := 1, centralTotal := 2, centralDropped := 3,
          centralEvents := 4, localActive := 5 }).slot =
      { value := some 2, ttl := some 9 } ∧
    (eventGenerator
        { token := some (.ok { sub := some "u", exp := some 100 }), startNow := 0,
          inactivity_ttl := 60, max_slots := 5, slot_ttl := 3600,
          store := .down, metricsMode := .down,
          schedule := [((3 : Int), AwaitOutcome.timedOut)] }
        { value := some 2, ttl := some 9 }
        { centralActive := 1, centralTotal := 2, centralDropped := 3,
          centralEvents := 4, localActive := 5 }).metrics =
      { centralActive := 1, centralTotal := 2, centralDropped := 3,
        centralEvents := 4, localActive := 5 } :=
  stream_fail_open_when_store_down { value := some 2, ttl := some 9 }
    { centralActive := 1, centralTotal := 2, centralDropped := 3,
      centralEvents := 4, localActive := 5 }
    "u" 100 0 60 5 3600 [((3 : Int), AwaitOutcome.timedOut)]
    (by decide) (by decide)

/-- C4 counterexample: with the store configured but unreachable, a
token-bearing session's metric increments neither land centrally nor fall
back to the local counters: after the admission/increment phase the whole
metrics state (in particular `localActive`, still 3) is unchanged, refuting
"metric increments fall back to the local in-process counters". -/
theorem stream_store_down_metrics_not_local :
    (eventGeneratorBody
        { token := some (.ok { sub := some "u", exp := some 100 }), startNow := 0,
          inactivity_ttl := 60, max_slots := 5, slot_ttl := 3600,
          store := .down, metricsMode := .down, schedule := [] }
        { value := none, ttl := none }
        { centralActive := 5, centralTotal := 6, centralDropped := 7,
          centralEvents := 8, localActive := 3 }).1.metrics =
      { centralActive := 5, centralTotal := 6, centralDropped := 7,
        centralEvents := 8, localActive := 3 } ∧
    (eventGeneratorBody
        { token := some (.ok { sub := some "u", exp := some 100 }), startNow := 0,
          inactivity_ttl := 60, max_slots := 5, slot_ttl := 3600,
          store := .down, metricsMode := .down, schedule := [] }
        { value := none, ttl := none }
        { centralActive := 5, centralTotal := 6, centralDropped := 7,
          centralEvents := 8, localActive := 3 }).1.acquired = true ∧
    (eventGenerator
        { token := some (.ok { sub := some "u", exp := some 100 }), startNow := 0,
          inactivity_ttl := 60, max_slots := 5, slot_ttl := 3600,
          store := .down, metricsMode := .down, schedule := [] }
        { value := none, ttl := none }
        { centralActive := 5, centralTotal := 6, centralDropped := 7,
          centralEvents := 8, localActive := 3 }).metrics =
      { centralActive := 5, centralTotal := 6, centralDropped := 7,
        centralEvents := 8, localActive := 3 } :=
  ⟨rfl, rfl, rfl⟩

/-- C8 counterexample: the central `active_connections` counter goes
negative.  A single session presenting an already-expired token, starting
from a zeroed central store, is rejected before any increment, yet its
teardown issues the unclamped central `HINCRBY -1`: the counter ends at -1,
refuting "greater than or equal to zero at all times, because every
decrement is clamped at zero". -/
theorem central_active_can_go_negative :
    (eventGenerator
        { token := some (.ok { sub := some "u", exp := some 0 }), startNow := 5,
          inactivity_ttl := 60, max_slots := 5, slot_ttl := 3600,
          store := .up, metricsMode := .central, schedule := [] }
        { value := none, ttl := none }
        { centralActive := 0, centralTotal := 0, centralDropped := 0,
          centralEvents := 0, localActive := 0 }).metrics.centralActive = -1 ∧
    (eventGenerator
        { token := some (.ok { sub := some "u", exp := some 0 }), startNow := 5,
          inactivity_ttl := 60, max_slots := 5, slot_ttl := 3600,
          store := .up, metricsMode := .central, schedule := [] }
        { value := none, ttl := none }
        { centralActive := 0, centralTotal := 0, centralDropped := 0,
          centralEvents := 0, localActive := 0 }).metrics.localActive = 0 :=
  ⟨rfl, rfl⟩

/-- C8 (amended): the local in-process fallback counter
`_local_active_connections` never goes below zero across any session — its
only writes are an increment and the teardown decrement guarded by
`if _local_active_connections > 0`.  (The central counter is not protected:
its decrement is an unclamped `HINCRBY`, see the counterexample.) -/
theorem local_active_connections_nonneg (env : SessionEnv) (slot0 : SlotState)
    (m0 : MetricsState) (h : 0 ≤ m0.localActive) :
    0 ≤ (eventGenerator env slot0 m0).metrics.localActive := by
  have hb := eventGeneratorBody_localActive env slot0 m0
  have hpos : 0 ≤ (eventGeneratorBody env slot0 m0).1.metrics.localActive := by
    rcases hb with hb | hb <;> omega
  exact teardownRun_localActive_nonneg env _ hpos

theorem local_active_connections_nonneg_witness :
    0 ≤ (eventGenerator
        { token := none, startNow := 0, inactivity_ttl := 60, max_slots := 5,
          slot_ttl := 3600, store := .up, metricsMode := .unconfigured,
          schedule := [((1 : Int), AwaitOutcome.nextEvent 11 true)] }
        { value := none, ttl := none }
        { centralActive := 0, centralTotal := 0, centralDropped := 0,
          centralEvents := 0, localActive := 0 }).metrics.localActive :=
  local_active_connections_nonneg
    { token := none, startNow := 0, inactivity_ttl := 60, max_slots := 5,
      slot_ttl := 3600, store := .up, metricsMode := .unconfigured,
      schedule := [((1 : Int), AwaitOutcome.nextEvent 11 true)] }
    { value := none, ttl := none }
    { centralActive := 0, centralTotal := 0, centralDropped := 0,
      centralEvents := 0, localActive := 0 }
    (by decide)

/-- C10: every token-bearing session rejected before its metric increments —
`_decode_jwt` raised, `exp` missing or already past, or admission denied —
still issues the central `active_connections` decrement in teardown, so
with a reachable central store the counter receives a decrement with no
matching increment: it ends exactly one below its initial value while
`total_connections` and the local counter are untouched, no slot release
happens, and the session ends with an HTTP error. -/
theorem unmatched_central_decrement (env : SessionEnv) (slot0 : SlotState)
    (m0 : MetricsState) (hc : env.metricsMode = .central)
    (hr : preIncrementRejected env slot0 = true) :
    (eventGenerator env slot0 m0).metrics.centralActive = m0.centralActive - 1 ∧
    (eventGenerator env slot0 m0).metrics.centralTotal = m0.centralTotal ∧
    (eventGenerator env slot0 m0).metrics.localActive = m0.localActive ∧
    (eventGenerator env slot0 m0).released = false ∧
    ∃ code, (eventGenerator env slot0 m0).exit = ExitKind.http code := by
  have hbody : (eventGeneratorBody env slot0 m0).1.metrics = m0 ∧
      (eventGeneratorBody env slot0 m0).1.acquired = false ∧
      (∃ code, (eventGeneratorBody env slot0 m0).2.1 = ExitKind.http code) := by
    cases htok : env.token with
    | none => simp [preIncrementRejected, htok] at hr
    | some exc =>
        cases exc with
        | error code =>
            refine ⟨?_, ?_, code, ?_⟩ <;> simp [eventGeneratorBody, htok]
        | ok p =>
            cases hexp : p.exp with
            | none =>
                refine ⟨?_, ?_, 401, ?_⟩ <;> simp [eventGeneratorBody, htok, hexp]
            | some e =>
                by_cases he : e - env.startNow ≤ 0
                · refine ⟨?_, ?_, 401, ?_⟩ <;>
                    simp [eventGeneratorBody, htok, hexp, he]
                · have hacq : (user_slot_acquire env.store env.max_slots
                      env.slot_ttl slot0).1 = false := by
                    simp [preIncrementRejected, htok, hexp, he] at hr
                    exact hr
                  refine ⟨?_, ?_, 429, ?_⟩ <;>
                    simp [eventGeneratorBody, htok, hexp, he, hacq]
  obtain ⟨hm, hacq0, code, hexit⟩ := hbody
  have H := teardownRun_spec env (eventGeneratorBody env slot0 m0).1
  refine ⟨?_, ?_, ?_, ?_, ⟨code, hexit⟩⟩
  · have h1 := (H.2.2.2.2.2.1 hc).1
    rw [hm] at h1
    exact h1
  · have h1 := (H.2.2.2.2.2.1 hc).2.2
    rw [hm] at h1
    exact h1
  · have h1 := (H.2.2.2.2.2.1 hc).2.1
    rw [hm] at h1
    exact h1
  · have h1 := H.1
    rw [hacq0] at h1
    simpa using h1

theorem unmatched_central_decrement_witness :
    (eventGenerator
        { token := some (.ok { sub := some "x", exp := some 0 }), startNow := 9,
          inactivity_ttl := 60, max_slots := 5, slot_ttl := 3600,
          store := .up, metricsMode := .central, schedule := [] }
        { value := none, ttl := none }
        { centralActive := 4, centralTotal := 7, centralDropped := 0,
          centralEvents := 0, localActive := 2 }).metrics.centralActive = 4 - 1 ∧
    (eventGenerator
        { token := some (.ok { sub := some "x", exp := some 0 }), startNow := 9,
          inactivity_ttl := 60, max_slots := 5, slot_ttl := 3600,
          store := .up, metricsMode := .central, schedule := [] }
        { value := none, ttl := none }
        { centralActive := 4, centralTotal := 7, centralDropped := 0,
          centralEvents := 0, localActive := 2 }).metrics.centralTotal = 7 ∧
    (eventGenerator
        { token := some (.ok { sub := some "x", exp := some 0 }), startNow := 9,
          inactivity_ttl := 60, max_slots := 5, slot_ttl := 3600,
          store := .up, metricsMode := .central, schedule := [] }
        { value := none, ttl := none }
        { centralActive := 4, centralTotal := 7, centralDropped := 0,
          centralEvents := 0, localActive := 2 }).metrics.localActive = 2 ∧
    (eventGenerator
        { token := some (.ok { sub := some "x", exp := some 0 }), startNow := 9,
          inactivity_ttl := 60, max_slots := 5, slot_ttl := 3600,
          store := .up, metricsMode := .central, schedule := [] }
        { value := none, ttl := none }
        { centralActive := 4, centralTotal := 7, centralDropped := 0,
          centralEvents := 0, localActive := 2 }).released = false ∧
    ∃ code, (eventGenerator
        { token := some (.ok { sub := some "x", exp := some 0 }), startNow := 9,
          inactivity_ttl := 60, max_slots := 5, slot_ttl := 3600,
          store := .up, metricsMode := .central, schedule := [] }
        { value := none, ttl := none }
        { centralActive := 4, centralTotal := 7, centralDropped := 0,
          centralEvents := 0, localActive := 2 }).exit = ExitKind.http code :=
  unmatched_central_decrement
    { token := some (.ok { sub := some "x", exp := some 0 }), startNow := 9,
      inactivity_ttl := 60, max_slots := 5, slot_ttl := 3600,
      store := .up, metricsMode := .central, schedule := [] }
    { value := none, ttl := none }
    { centralActive := 4, centralTotal := 7, centralDropped := 0,
      centralEvents := 0, localActive := 2 }
    rfl (by decide)

/-- C7: in every iteration of the emit loop, when a token is present the
remaining token lifetime is recomputed as `exp - now` and the iteration
terminates the session with 401 Unauthenticated when it has reached zero or
below; otherwise the wait deadline is the minimum of the remaining token
lifetime and the inactivity bound over whichever of the two are configured
(token present; `inactivity_ttl` truthy), and when neither bound is
configured the computed timeout is `None` (wait indefinitely for the next
event). -/
theorem stream_deadline_each_iteration :
    (∀ (p : TokenPayload) (e now inact : Int), p.exp = some e →
      (e - now ≤ 0 → computeTimeout (some p) now inact = .error ()) ∧
      (0 < e - now → computeTimeout (some p) now inact =
        .ok (some (if inact ≠ 0 then min (e - now) inact else e - now)))) ∧
    (∀ now inact : Int,
      computeTimeout none now inact =
        .ok (if inact ≠ 0 then some inact else none)) ∧
    (∀ (mode : MetricsMode) (p : TokenPayload) (e inact now : Int)
        (sched : List (Int × AwaitOutcome)) (sess : Sess) (o : AwaitOutcome),
      p.exp = some e → e - now ≤ 0 →
      (runLoop mode (some p) inact ((now, o) :: sched) sess []).2.1 =
        ExitKind.http 401) := by
  refine ⟨?_, ?_, ?_⟩
  · intro p e now inact hexp
    constructor
    · intro hle
      simp [computeTimeout, hexp, hle]
    · intro hgt
      have hne : ¬(e - now ≤ 0) := by omega
      simp [computeTimeout, hexp, hne]
  · intro now inact
    simp [computeTimeout]
  · intro mode p e inact now sched sess o hexp hle
    have hct : computeTimeout (some p) now inact = .error () := by
      simp [computeTimeout, hexp, hle]
    simp [runLoop, hct]

theorem stream_deadline_each_iteration_witness :
    computeTimeout (some { sub := some "u", exp := some 10 }) 3 60 =
      .ok (some (if (60 : Int) ≠ 0 then min ((10 : Int) - 3) 60 else 10 - 3)) ∧
    (runLoop .central (some { sub := some "u", exp := some 2 }) 60
        [((5 : Int), AwaitOutcome.streamClosed)]
        { slot := { value := none, ttl := none },
          metrics := { centralActive := 0, centralTotal := 0, centralDropped := 0,
                       centralEvents := 0, localActive := 0 },
          acquired := false, userSub := none } []).2.1 = ExitKind.http 401 :=
  ⟨(stream_deadline_each_iteration.1 { sub := some "u", exp := some 10 } 10 3 60
      rfl).2 (by decide),
   stream_deadline_each_iteration.2.2 .central { sub := some "u", exp := some 2 }
     2 60 5 []
     { slot := { value := none, ttl := none },
       metrics := { centralActive := 0, centralTotal := 0, centralDropped := 0,
                    centralEvents := 0, localActive := 0 },
       acquired := false, userSub := none }
     AwaitOutcome.streamClosed rfl (by decide)⟩
